import Mathlib

set_option autoImplicit false

/-!
Shallow embedding of the transactional core of the bank repository:
the Transactional Executor (`execTx`), the Transfer Transaction
(`TransferTx` / `addMoney`), the User-Creation Transaction
(`CreateUserTx`), the Email-Verification Transaction (`VerifyEmailTx`),
the task handler `ProcessTaskSendVerifyEmail`, and the HTTP transfer
handler `api.createTransfer`.

Database rows are embedded as Lean structures with the Go field names;
the sqlc-generated single-row accessors (which are not part of the
analysed sources, only their callers are) are modelled from the spec's
Entity Store interface (§6) as pure state transformers over a `DB`
value.  Transient store failures (§7 "Transient/Infra", §8 "injected
mid-transaction failures") are modelled by a failure schedule: a
predicate on the index of the store call inside the current unit of
work that decides whether that call is forced to fail.
-/

namespace Bank

/-- Errors, mirroring the Go error values the analysed code builds:
`injected` models a transient store failure, `noRows` the no-rows error
of the sql/pgx drivers, `uniqueViolation` a uniqueness conflict,
`invalidCode` the `errors.New("invalid email_id or secret_code")` value,
`skipRetry` the `asynq.SkipRetry` sentinel, `plain` an opaque external
error, `wrap` a `fmt.Errorf("...: %w", err)` wrapper (which preserves
the unwrap chain), and `txRollback` the
`fmt.Errorf("tx err: %v, rb err: %v", err, rbErr)` combination (which,
using `%v`, does not preserve the unwrap chain but reports both). -/
inductive Err where
  | injected (n : Nat)
  | noRows
  | uniqueViolation
  | invalidCode
  | skipRetry
  | plain (msg : String)
  | wrap (msg : String) (cause : Err)
  | txRollback (txErr : Err) (rbErr : Err)
deriving DecidableEq, Repr

/-- Account row: id, owner, balance (minor units, signed), currency. -/
structure Account where
  ID : Int
  Owner : String
  Balance : Int
  Currency : String
deriving DecidableEq, Repr

/-- The Go zero value of `Account`, what a failed sqlc call returns. -/
def Account.zero : Account := ⟨0, "", 0, ""⟩

/-- Entry row: append-only ledger line against one account. -/
structure Entry where
  ID : Int
  AccountID : Int
  Amount : Int
deriving DecidableEq, Repr

/-- The Go zero value of `Entry`. -/
def Entry.zero : Entry := ⟨0, 0, 0⟩

/-- Transfer row. -/
structure Transfer where
  ID : Int
  FromAccountID : Int
  ToAccountID : Int
  Amount : Int
deriving DecidableEq, Repr

/-- The Go zero value of `Transfer`. -/
def Transfer.zero : Transfer := ⟨0, 0, 0, 0⟩

/-- User row (the fields the analysed core touches). -/
structure User where
  Username : String
  HashedPassword : String
  FullName : String
  Email : String
  IsEmailVerified : Bool
deriving DecidableEq, Repr

/-- The Go zero value of `User`. -/
def User.zero : User := ⟨"", "", "", "", false⟩

/-- VerifyEmail row: one-time verification record. -/
structure VerifyEmail where
  ID : Int
  Username : String
  Email : String
  SecretCode : String
  IsUsed : Bool
deriving DecidableEq, Repr

/-- The Go zero value of `VerifyEmail`. -/
def VerifyEmail.zero : VerifyEmail := ⟨0, "", "", "", false⟩

/-- The relational store: all persisted rows, plus the next serial ids. -/
structure DB where
  accounts : List Account
  entries : List Entry
  transfers : List Transfer
  users : List User
  verifyEmails : List VerifyEmail
  nextTransferID : Int
  nextEntryID : Int
  nextVerifyEmailID : Int
deriving DecidableEq, Repr

/-- Balance of the account with the given id, if it exists. -/
def DB.balance (db : DB) (id : Int) : Option Int :=
  (db.accounts.find? (fun a => a.ID == id)).map (fun a => a.Balance)

/-- Parameters of sqlc's `CreateTransfer`. -/
structure CreateTransferParams where
  FromAccountID : Int
  ToAccountID : Int
  Amount : Int
deriving DecidableEq, Repr

/-- Parameters of sqlc's `CreateEntry`. -/
structure CreateEntryParams where
  AccountID : Int
  Amount : Int
deriving DecidableEq, Repr

/-- Parameters of sqlc's `AddAccountBalance`. -/
structure AddAccountBalanceParams where
  ID : Int
  Amount : Int
deriving DecidableEq, Repr

/-- Parameters of sqlc's `CreateUser`. -/
structure CreateUserParams where
  Username : String
  HashedPassword : String
  FullName : String
  Email : String
deriving DecidableEq, Repr

/-- Parameters of sqlc's `UpdateVerifyEmail`. -/
structure UpdateVerifyEmailParams where
  ID : Int
  SecretCode : String
deriving DecidableEq, Repr

/-- Parameters of sqlc's `UpdateUser` (only the fields the analysed
core passes: the username key and the nullable verified flag). -/
structure UpdateUserParams where
  Username : String
  IsEmailVerified : Option Bool
deriving DecidableEq, Repr

/-- Parameters of sqlc's `CreateVerifyEmail`. -/
structure CreateVerifyEmailParams where
  Username : String
  Email : String
  SecretCode : String
deriving DecidableEq, Repr

/-- The store operations a unit of work (or the request handler) can
issue; the trace of issued operations is what the ordering and
frame claims are stated over. -/
inductive Op where
  | createTransfer (p : CreateTransferParams)
  | createEntry (p : CreateEntryParams)
  | addAccountBalance (p : AddAccountBalanceParams)
  | createUser (p : CreateUserParams)
  | afterCreate (u : User)
  | updateVerifyEmail (p : UpdateVerifyEmailParams)
  | updateUser (p : UpdateUserParams)
  | createVerifyEmail (p : CreateVerifyEmailParams)
  | getUser (username : String)
  | getAccount (id : Int)
deriving DecidableEq, Repr

/-- A failure schedule: store call number `n` of the current unit of
work fails iff `sched n` is true (§8: "injected mid-transaction
failures"). -/
abbrev Sched := Nat → Bool

/-- The schedule with no injected failures. -/
def noFail : Sched := fun _ => false

/-- The schedule failing exactly the `k`-th store call. -/
def failAt (k : Nat) : Sched := fun n => n == k

/-- State of one transaction-scoped `Queries` value: the current
database image, the number of store calls issued so far, and the trace
of issued operations. -/
structure QState where
  db : DB
  idx : Nat
  trace : List Op

/-- Record one issued store call. -/
def step (s : QState) (op : Op) : QState :=
  { s with idx := s.idx + 1, trace := s.trace ++ [op] }

/-- Modelled from the spec: sqlc's generated `CreateTransfer` (a plain
row insert, §6 Entity Store interface) is not among the analysed
sources; it appends a Transfer row under a fresh serial id. -/
def CreateTransfer (sched : Sched) (p : CreateTransferParams) (s : QState) :
    QState × Except Err Transfer :=
  let s' := step s (.createTransfer p)
  if sched s.idx then
    (s', .error (.injected s.idx))
  else
    let tr : Transfer := ⟨s.db.nextTransferID, p.FromAccountID, p.ToAccountID, p.Amount⟩
    ({ s' with db := { s'.db with
        transfers := s'.db.transfers ++ [tr],
        nextTransferID := s'.db.nextTransferID + 1 } }, .ok tr)

/-- Modelled from the spec: sqlc's generated `CreateEntry` (a plain row
insert, §6) is not among the analysed sources; it appends an Entry row
under a fresh serial id. -/
def CreateEntry (sched : Sched) (p : CreateEntryParams) (s : QState) :
    QState × Except Err Entry :=
  let s' := step s (.createEntry p)
  if sched s.idx then
    (s', .error (.injected s.idx))
  else
    let e : Entry := ⟨s.db.nextEntryID, p.AccountID, p.Amount⟩
    ({ s' with db := { s'.db with
        entries := s'.db.entries ++ [e],
        nextEntryID := s'.db.nextEntryID + 1 } }, .ok e)

/-- Modelled from the spec: sqlc's generated `AddAccountBalance` is not
among the analysed sources; per §6 it is the additive balance update
that applies a delta server-side (never read-modify-write) and returns
the updated row, failing with the no-rows error when the account does
not exist. -/
def AddAccountBalance (sched : Sched) (p : AddAccountBalanceParams) (s : QState) :
    QState × Except Err Account :=
  let s' := step s (.addAccountBalance p)
  if sched s.idx then
    (s', .error (.injected s.idx))
  else
    match s.db.accounts.find? (fun a => a.ID == p.ID) with
    | none => (s', .error .noRows)
    | some a =>
      ({ s' with db := { s'.db with
          accounts := s'.db.accounts.map (fun b =>
            if b.ID == p.ID then { b with Balance := b.Balance + p.Amount } else b) } },
       .ok { a with Balance := a.Balance + p.Amount })

/-- Outcomes of the transaction-control operations of one `execTx`
envelope: whether `BeginTx` fails, and what `Rollback` / `Commit`
would return if attempted. -/
structure TxCtl where
  beginErr : Option Err
  rollbackErr : Option Err
  commitErr : Option Err
deriving DecidableEq, Repr

/-- Transaction control with no failures. -/
def noTxFail : TxCtl := ⟨none, none, none⟩

/-- `execTx` from `db/sqlc/exec_tx.go` / `store.go`: open a
transaction, run the unit-of-work callback on a transaction-scoped
`Queries`, commit on success; on failure roll back, returning the
callback's error, or - when rollback itself fails - the combined
`tx err: %v, rb err: %v` error.  The callback additionally yields a
result value `ρ` because the Go callbacks write their result into a
captured variable that is returned even on failure. -/
def execTx {ρ : Type} (zero : ρ) (ctl : TxCtl) (db : DB)
    (fn : QState → QState × ρ × Option Err) :
    DB × ρ × List Op × Option Err :=
  match ctl.beginErr with
  | some e => (db, zero, [], some e)
  | none =>
    match fn ⟨db, 0, []⟩ with
    | (s, r, some e) =>
      match ctl.rollbackErr with
      | some rbErr => (db, r, s.trace, some (.txRollback e rbErr))
      | none => (db, r, s.trace, some e)
    | (s, r, none) =>
      match ctl.commitErr with
      | some ce => (db, r, s.trace, some ce)
      | none => (s.db, r, s.trace, none)

/-- Input of the transfer transaction. -/
structure TransferTxParams where
  FromAccountID : Int
  ToAccountID : Int
  Amount : Int
deriving DecidableEq, Repr

/-- Result of the transfer transaction. -/
structure TransferTxResult where
  Transfer : Transfer
  FromAccount : Account
  ToAccount : Account
  FromEntry : Entry
  ToEntry : Entry
deriving DecidableEq, Repr

/-- The Go zero value of `TransferTxResult`. -/
def TransferTxResult.zero : TransferTxResult :=
  ⟨Transfer.zero, Account.zero, Account.zero, Entry.zero, Entry.zero⟩

/-- `addMoney` from `store.go` / part_007: add `amount1` to account
`accountID1`, then `amount2` to account `accountID2`, returning the two
updated rows; on the first call's failure it returns at once with the
named results still at their zero values. -/
def addMoney (sched : Sched) (s : QState)
    (accountID1 : Int) (amount1 : Int) (accountID2 : Int) (amount2 : Int) :
    QState × Account × Account × Option Err :=
  match AddAccountBalance sched ⟨accountID1, amount1⟩ s with
  | (s1, .error e) => (s1, Account.zero, Account.zero, some e)
  | (s1, .ok account1) =>
    match AddAccountBalance sched ⟨accountID2, amount2⟩ s1 with
    | (s2, .error e) => (s2, account1, Account.zero, some e)
    | (s2, .ok account2) => (s2, account1, account2, none)

/-- The unit-of-work callback of `TransferTx`: insert the Transfer row,
the debit Entry (negated amount), the credit Entry, then apply both
balance deltas through `addMoney`, lower account id first.  Note that
the Go closure ends with `return nil`, so the error of the `addMoney`
step is dropped; the embedding mirrors that faithfully. -/
def transferTxFn (sched : Sched) (arg : TransferTxParams) (s : QState) :
    QState × TransferTxResult × Option Err :=
  match CreateTransfer sched ⟨arg.FromAccountID, arg.ToAccountID, arg.Amount⟩ s with
  | (s1, .error e) => (s1, TransferTxResult.zero, some e)
  | (s1, .ok tr) =>
    match CreateEntry sched ⟨arg.FromAccountID, -arg.Amount⟩ s1 with
    | (s2, .error e) => (s2, { TransferTxResult.zero with Transfer := tr }, some e)
    | (s2, .ok fromEntry) =>
      match CreateEntry sched ⟨arg.ToAccountID, arg.Amount⟩ s2 with
      | (s3, .error e) =>
        (s3, { TransferTxResult.zero with Transfer := tr, FromEntry := fromEntry }, some e)
      | (s3, .ok toEntry) =>
        if arg.FromAccountID < arg.ToAccountID then
          match addMoney sched s3 arg.FromAccountID (-arg.Amount) arg.ToAccountID arg.Amount with
          | (s4, a1, a2, _err) => (s4, ⟨tr, a1, a2, fromEntry, toEntry⟩, none)
        else
          match addMoney sched s3 arg.ToAccountID arg.Amount arg.FromAccountID (-arg.Amount) with
          | (s4, a1, a2, _err) => (s4, ⟨tr, a2, a1, fromEntry, toEntry⟩, none)

/-- `TransferTx` from `store.go` / part_007: the transfer unit of work
run through `execTx`. -/
def TransferTx (sched : Sched) (ctl : TxCtl) (db : DB) (arg : TransferTxParams) :
    DB × TransferTxResult × List Op × Option Err :=
  execTx TransferTxResult.zero ctl db (transferTxFn sched arg)

/-- The account ids of the `AddAccountBalance` calls of a trace, in
issue order. -/
def addBalanceIDs (ops : List Op) : List Int :=
  ops.filterMap (fun op =>
    match op with
    | .addAccountBalance p => some p.ID
    | _ => none)

/-- A two-account store used for the concrete evaluations. -/
def db0 : DB :=
  { accounts := [⟨1, "alice", 100, "USD"⟩, ⟨2, "bob", 50, "USD"⟩],
    entries := [], transfers := [], users := [], verifyEmails := [],
    nextTransferID := 1, nextEntryID := 1, nextVerifyEmailID := 1 }

/-- Modelled from the spec: sqlc's generated `CreateUser` (a plain row
insert, §6) is not among the analysed sources; it inserts the User row,
surfacing a uniqueness violation on a duplicate username (§7
"Conflict"). A fresh user starts unverified. -/
def CreateUser (sched : Sched) (p : CreateUserParams) (s : QState) :
    QState × Except Err User :=
  let s' := step s (.createUser p)
  if sched s.idx then
    (s', .error (.injected s.idx))
  else if s.db.users.any (fun u => u.Username == p.Username) then
    (s', .error .uniqueViolation)
  else
    let u : User := ⟨p.Username, p.HashedPassword, p.FullName, p.Email, false⟩
    ({ s' with db := { s'.db with users := s'.db.users ++ [u] } }, .ok u)

/-- Modelled from the spec: sqlc's generated `GetUser` (a single-row
read, §6) is not among the analysed sources; it returns the row with
the given username or the no-rows error. -/
def GetUser (sched : Sched) (username : String) (s : QState) :
    QState × Except Err User :=
  let s' := step s (.getUser username)
  if sched s.idx then
    (s', .error (.injected s.idx))
  else
    match s.db.users.find? (fun u => u.Username == username) with
    | none => (s', .error .noRows)
    | some u => (s', .ok u)

/-- Modelled from the spec: sqlc's generated `UpdateUser` is not among
the analysed sources; per §6 it updates the row with the given
username (here only the nullable verified flag the analysed core
passes), returning the updated row, or the no-rows error when the user
does not exist. -/
def UpdateUser (sched : Sched) (p : UpdateUserParams) (s : QState) :
    QState × Except Err User :=
  let s' := step s (.updateUser p)
  if sched s.idx then
    (s', .error (.injected s.idx))
  else
    match s.db.users.find? (fun u => u.Username == p.Username) with
    | none => (s', .error .noRows)
    | some u =>
      ({ s' with db := { s'.db with
          users := s'.db.users.map (fun v =>
            if v.Username == p.Username then
              { v with IsEmailVerified := p.IsEmailVerified.getD v.IsEmailVerified }
            else v) } },
       .ok { u with IsEmailVerified := p.IsEmailVerified.getD u.IsEmailVerified })

/-- Modelled from the spec: sqlc's generated `UpdateVerifyEmail` is not
among the analysed sources; per §4.4 it is the conditional consume of
the verification record, "conditioned on the record existing and not
already consumed": it marks used the row matching the given id and
secret code that is not yet used, returning the updated row, or the
no-rows error when nothing matches.  (The real query also compares an
expiry timestamp against the clock; wall-clock time is outside this
model.) -/
def UpdateVerifyEmail (sched : Sched) (p : UpdateVerifyEmailParams) (s : QState) :
    QState × Except Err VerifyEmail :=
  let s' := step s (.updateVerifyEmail p)
  if sched s.idx then
    (s', .error (.injected s.idx))
  else
    match s.db.verifyEmails.find? (fun v =>
        v.ID == p.ID && v.SecretCode == p.SecretCode && !v.IsUsed) with
    | none => (s', .error .noRows)
    | some v =>
      ({ s' with db := { s'.db with
          verifyEmails := s'.db.verifyEmails.map (fun w =>
            if w.ID == p.ID && w.SecretCode == p.SecretCode && !w.IsUsed then
              { w with IsUsed := true }
            else w) } },
       .ok { v with IsUsed := true })

/-- Modelled from the spec: sqlc's generated `CreateVerifyEmail` (a
plain row insert, §6) is not among the analysed sources; it appends a
fresh, unconsumed verification record under a fresh serial id. -/
def CreateVerifyEmail (sched : Sched) (p : CreateVerifyEmailParams) (s : QState) :
    QState × Except Err VerifyEmail :=
  let s' := step s (.createVerifyEmail p)
  if sched s.idx then
    (s', .error (.injected s.idx))
  else
    let v : VerifyEmail := ⟨s.db.nextVerifyEmailID, p.Username, p.Email, p.SecretCode, false⟩
    ({ s' with db := { s'.db with
        verifyEmails := s'.db.verifyEmails ++ [v],
        nextVerifyEmailID := s'.db.nextVerifyEmailID + 1 } }, .ok v)

/-- Input of the user-creation transaction: the user attributes plus
the `AfterCreate` callback embedded in the parameter struct. -/
structure CreateUserTxParams where
  CreateUserParams : CreateUserParams
  AfterCreate : User → Option Err

/-- Result of the user-creation transaction. -/
structure CreateUserTxResult where
  User : User
deriving DecidableEq, Repr

/-- The Go zero value of `CreateUserTxResult`. -/
def CreateUserTxResult.zero : CreateUserTxResult := ⟨User.zero⟩

/-- The unit-of-work callback of `CreateUserTx` (part_005): insert the
User row; on success invoke `AfterCreate` on the created user - its
invocation is recorded in the trace - and return the callback's
outcome as the unit of work's outcome. -/
def createUserTxFn (sched : Sched) (arg : CreateUserTxParams) (s : QState) :
    QState × CreateUserTxResult × Option Err :=
  match CreateUser sched arg.CreateUserParams s with
  | (s1, .error e) => (s1, CreateUserTxResult.zero, some e)
  | (s1, .ok u) =>
    ({ s1 with trace := s1.trace ++ [.afterCreate u] }, ⟨u⟩, arg.AfterCreate u)

/-- `CreateUserTx` from part_005: the user-creation unit of work run
through `execTx`. -/
def CreateUserTx (sched : Sched) (ctl : TxCtl) (db : DB) (arg : CreateUserTxParams) :
    DB × CreateUserTxResult × List Op × Option Err :=
  execTx CreateUserTxResult.zero ctl db (createUserTxFn sched arg)

/-- Number of `afterCreate` invocations recorded in a trace. -/
def countAfterCreate (ops : List Op) : Nat :=
  (ops.filter (fun op =>
    match op with
    | .afterCreate _ => true
    | _ => false)).length

/-- Input of the email-verification transaction. -/
structure VerifyEmailTxParams where
  EmailId : Int
  SecretCode : String
deriving DecidableEq, Repr

/-- Result of the email-verification transaction. -/
structure VerifyEmailTxResult where
  User : User
  VerifyEmail : VerifyEmail
deriving DecidableEq, Repr

/-- The Go zero value of `VerifyEmailTxResult`. -/
def VerifyEmailTxResult.zero : VerifyEmailTxResult := ⟨User.zero, VerifyEmail.zero⟩

/-- The unit-of-work callback of `VerifyEmailTx`
(`db/sqlc/tx_verify_email.go`): conditionally consume the verification
record; if the call fails, or returns a row with zero id (the code's
"no record updated" guard, answered with the
`invalid email_id or secret_code` error), abort; otherwise set the
owning user's verified flag to true. -/
def verifyEmailTxFn (sched : Sched) (arg : VerifyEmailTxParams) (s : QState) :
    QState × VerifyEmailTxResult × Option Err :=
  match UpdateVerifyEmail sched ⟨arg.EmailId, arg.SecretCode⟩ s with
  | (s1, .error e) => (s1, VerifyEmailTxResult.zero, some e)
  | (s1, .ok ve) =>
    if ve.ID == 0 then
      (s1, { VerifyEmailTxResult.zero with VerifyEmail := ve }, some .invalidCode)
    else
      match UpdateUser sched ⟨ve.Username, some true⟩ s1 with
      | (s2, .error e) =>
        (s2, { VerifyEmailTxResult.zero with VerifyEmail := ve }, some e)
      | (s2, .ok u) => (s2, ⟨u, ve⟩, none)

/-- `VerifyEmailTx` from `db/sqlc/tx_verify_email.go`: the verification
unit of work run through `execTx`. -/
def VerifyEmailTx (sched : Sched) (ctl : TxCtl) (db : DB) (arg : VerifyEmailTxParams) :
    DB × VerifyEmailTxResult × List Op × Option Err :=
  execTx VerifyEmailTxResult.zero ctl db (verifyEmailTxFn sched arg)

/-- Whether an error's unwrap chain (through `%w` wrappers) reaches the
`asynq.SkipRetry` sentinel; this is `errors.Is(err, asynq.SkipRetry)`,
which is how asynq decides NOT to retry a failed task. -/
def containsSkipRetry : Err → Bool
  | .skipRetry => true
  | .wrap _ cause => containsSkipRetry cause
  | _ => false

/-- A task handler error is retryable (the task is re-enqueued) exactly
when it does not carry the `SkipRetry` sentinel. -/
def retryable (e : Err) : Bool := !containsSkipRetry e

namespace worker

/-- Payload of the send-verify-email task. -/
structure PayloadSendVerifyEmail where
  Username : String
deriving DecidableEq, Repr

/-- `ProcessTaskSendVerifyEmail` from part_001: unmarshal the payload
(a failure is answered with an error wrapping `asynq.SkipRetry`), look
up the user (a failure is answered with an error wrapping the store's
error), create a fresh verification record, and send the mail through
the notifier (a failure is answered with an error wrapping the
notifier's error).  `parse` is the unmarshalling outcome, `secret` the
random secret code, `sendErr` the notifier's outcome; the store calls
run outside any transaction, so their effects persist even when a
later step fails. -/
def ProcessTaskSendVerifyEmail (sched : Sched)
    (parse : Except Err PayloadSendVerifyEmail) (secret : String)
    (sendErr : Option String) (db : DB) :
    DB × List Op × Option Err :=
  match parse with
  | .error _ => (db, [], some (.wrap "failed to unmarshal payload" .skipRetry))
  | .ok payload =>
    match GetUser sched payload.Username ⟨db, 0, []⟩ with
    | (s1, .error e) => (s1.db, s1.trace, some (.wrap "failed to get user" e))
    | (s1, .ok user) =>
      match CreateVerifyEmail sched ⟨user.Username, user.Email, secret⟩ s1 with
      | (s2, .error e) => (s2.db, s2.trace, some (.wrap "failed to create verify email" e))
      | (s2, .ok _verifyEmail) =>
        match sendErr with
        | some msg => (s2.db, s2.trace, some (.wrap "failed to send verify email" (.plain msg)))
        | none => (s2.db, s2.trace, none)

end worker

namespace api

/-- The transfer request body of the HTTP layer (`api/server.go`), with
its gin binding tags `required,min=1` on both account ids,
`required,gt=0` on the amount and `required,currency` on the currency.
-/
structure transferRequest where
  from_account_id : Int
  to_account_id : Int
  amount : Int
  currency : String
deriving DecidableEq, Repr

/-- `ShouldBindJSON` validation of a transfer request: both account ids
at least 1, amount strictly positive, currency accepted by the
registered currency validator (kept abstract as `currencyOK`). -/
def bindTransferRequest (currencyOK : String → Bool) (req : transferRequest) : Bool :=
  decide (1 ≤ req.from_account_id) && decide (1 ≤ req.to_account_id) &&
    decide (0 < req.amount) && currencyOK req.currency

/-- Modelled from the spec: sqlc's generated `GetAccount` (a single-row
read, §6) is not among the analysed sources; it returns the row with
the given id or the no-rows error. -/
def getAccount (db : DB) (id : Int) : Except Err Account :=
  match db.accounts.find? (fun a => a.ID == id) with
  | none => .error .noRows
  | some a => .ok a

/-- `validAccount` from `api/server.go`: fetch the account; a missing
row is answered with 404, any other store error with 500, and a
currency mismatch with 400; otherwise the account is valid. -/
def validAccount (db : DB) (accountID : Int) (currency : String) :
    Account × Bool × Option Nat :=
  match getAccount db accountID with
  | .error .noRows => (Account.zero, false, some 404)
  | .error _ => (Account.zero, false, some 500)
  | .ok account =>
    if account.Currency != currency then (account, false, some 400)
    else (account, true, none)

/-- `createTransfer` from `api/server.go`: bind and validate the
request (on failure answer 400 before touching the store), validate
the from-account, check it belongs to the authenticated user, validate
the to-account, then run `TransferTx`; the result is the HTTP status,
the trace of store operations issued, and the resulting store. -/
def createTransfer (currencyOK : String → Bool) (sched : Sched) (ctl : TxCtl)
    (authUsername : String) (db : DB) (req : transferRequest) :
    Nat × List Op × DB :=
  if !bindTransferRequest currencyOK req then (400, [], db)
  else
    match validAccount db req.from_account_id req.currency with
    | (_, false, st) => (st.getD 500, [.getAccount req.from_account_id], db)
    | (fromAccount, true, _) =>
      if fromAccount.Owner != authUsername then
        (401, [.getAccount req.from_account_id], db)
      else
        match validAccount db req.to_account_id req.currency with
        | (_, false, st) =>
          (st.getD 500, [.getAccount req.from_account_id, .getAccount req.to_account_id], db)
        | (_, true, _) =>
          match TransferTx sched ctl db ⟨req.from_account_id, req.to_account_id, req.amount⟩ with
          | (db2, _result, ops, some _e) =>
            (500, [Op.getAccount req.from_account_id, Op.getAccount req.to_account_id] ++ ops, db2)
          | (db2, _result, ops, none) =>
            (200, [Op.getAccount req.from_account_id, Op.getAccount req.to_account_id] ++ ops, db2)

end api

/-- A concrete user row for the worker witnesses. -/
def userBob : User := ⟨"bob", "h", "Bob", "b@x", false⟩

/-- A one-user store for the worker witnesses. -/
def dbU : DB :=
  { accounts := [], entries := [], transfers := [], users := [userBob],
    verifyEmails := [], nextTransferID := 1, nextEntryID := 1, nextVerifyEmailID := 1 }

/-- The query state after the worker's `GetUser` call on `dbU`. -/
def sGet : QState := ⟨dbU, 1, [.getUser "bob"]⟩

/-- The verification record the worker creates on `dbU`. -/
def veBob : VerifyEmail := ⟨1, "bob", "b@x", "sc", false⟩

/-- The query state after the worker's `CreateVerifyEmail` call on
`dbU`. -/
def sCreate : QState :=
  ⟨{ dbU with verifyEmails := [veBob], nextVerifyEmailID := 2 }, 2,
    [.getUser "bob", .createVerifyEmail ⟨"bob", "b@x", "sc"⟩]⟩

/-- A concrete unverified user row for the verification witness. -/
def userCarol : User := ⟨"carol", "h", "Carol", "c@x", false⟩

/-- A concrete unconsumed verification record. -/
def veCarol : VerifyEmail := ⟨7, "carol", "c@x", "code", false⟩

/-- A store holding carol and her pending verification record. -/
def dbV : DB :=
  { accounts := [], entries := [], transfers := [], users := [userCarol],
    verifyEmails := [veCarol], nextTransferID := 1, nextEntryID := 1,
    nextVerifyEmailID := 8 }

/-- Carol's verification record once consumed. -/
def veCarolUsed : VerifyEmail := ⟨7, "carol", "c@x", "code", true⟩

/-- Carol once verified. -/
def userCarolVerified : User := ⟨"carol", "h", "Carol", "c@x", true⟩

/-- The query state after the conditional consume on `dbV`. -/
def sV1 : QState :=
  ⟨{ dbV with verifyEmails := [veCarolUsed] }, 1, [.updateVerifyEmail ⟨7, "code"⟩]⟩

/-- The query state after also flipping carol's verified flag. -/
def sV2 : QState :=
  ⟨{ dbV with verifyEmails := [veCarolUsed], users := [userCarolVerified] }, 2,
    [.updateVerifyEmail ⟨7, "code"⟩, .updateUser ⟨"carol", some true⟩]⟩

/-- Parameters of the concrete user creation for the C9 witness. -/
def pAlice : CreateUserParams := ⟨"alice", "h", "Alice", "a@x"⟩

/-- The user row created from `pAlice`. -/
def userAlice : User := ⟨"alice", "h", "Alice", "a@x", false⟩

/-- The query state after inserting alice into `db0`. -/
def sU1 : QState := ⟨{ db0 with users := [userAlice] }, 1, [.createUser pAlice]⟩

/-! ## Inversion and frame lemmas for the store primitives -/

/-- A failed `AddAccountBalance` call only records the attempt: the
database image is unchanged and one operation joins the trace. -/
theorem AddAccountBalance_error (sched : Sched) (p : AddAccountBalanceParams)
    (s s1 : QState) (e : Err)
    (h : AddAccountBalance sched p s = (s1, .error e)) :
    s1 = { s with idx := s.idx + 1, trace := s.trace ++ [.addAccountBalance p] } := by
  simp only [AddAccountBalance, step] at h
  split at h
  · simp only [Prod.mk.injEq] at h
    exact h.1.symm
  · split at h
    · simp only [Prod.mk.injEq] at h
      exact h.1.symm
    · simp only [Prod.mk.injEq] at h
      simp at h

/-- A successful `CreateTransfer` appends exactly the requested row
under the next serial id and touches nothing else. -/
theorem CreateTransfer_ok (sched : Sched) (p : CreateTransferParams) (s s1 : QState)
    (tr : Transfer) (h : CreateTransfer sched p s = (s1, .ok tr)) :
    tr = ⟨s.db.nextTransferID, p.FromAccountID, p.ToAccountID, p.Amount⟩ ∧
    s1.db.transfers = s.db.transfers ++ [tr] ∧
    s1.db.entries = s.db.entries ∧
    s1.db.nextEntryID = s.db.nextEntryID ∧
    s1.trace = s.trace ++ [.createTransfer p] := by
  simp only [CreateTransfer, step] at h
  split at h
  · simp at h
  · simp only [Prod.mk.injEq, Except.ok.injEq] at h
    obtain ⟨h1, h2⟩ := h
    subst h2
    rw [← h1]
    exact ⟨rfl, rfl, rfl, rfl, rfl⟩

/-- A successful `CreateEntry` appends exactly the requested row under
the next serial id and touches nothing else. -/
theorem CreateEntry_ok (sched : Sched) (p : CreateEntryParams) (s s1 : QState)
    (en : Entry) (h : CreateEntry sched p s = (s1, .ok en)) :
    en = ⟨s.db.nextEntryID, p.AccountID, p.Amount⟩ ∧
    s1.db.entries = s.db.entries ++ [en] ∧
    s1.db.transfers = s.db.transfers ∧
    s1.trace = s.trace ++ [.createEntry p] := by
  simp only [CreateEntry, step] at h
  split at h
  · simp at h
  · simp only [Prod.mk.injEq, Except.ok.injEq] at h
    obtain ⟨h1, h2⟩ := h
    subst h2
    rw [← h1]
    exact ⟨rfl, rfl, rfl, rfl⟩

/-- A failed `CreateUser` only records the attempt. -/
theorem CreateUser_error (sched : Sched) (p : CreateUserParams) (s s1 : QState)
    (e : Err) (h : CreateUser sched p s = (s1, .error e)) :
    s1 = { s with idx := s.idx + 1, trace := s.trace ++ [.createUser p] } := by
  simp only [CreateUser, step] at h
  split at h
  · simp only [Prod.mk.injEq] at h
    exact h.1.symm
  · split at h
    · simp only [Prod.mk.injEq] at h
      exact h.1.symm
    · simp at h

/-- A successful `CreateUser` appends exactly the new, unverified user
row and records the attempt. -/
theorem CreateUser_ok (sched : Sched) (p : CreateUserParams) (s s1 : QState)
    (u : User) (h : CreateUser sched p s = (s1, .ok u)) :
    u = ⟨p.Username, p.HashedPassword, p.FullName, p.Email, false⟩ ∧
    s1.db.users = s.db.users ++ [u] ∧
    s1.trace = s.trace ++ [.createUser p] := by
  simp only [CreateUser, step] at h
  split at h
  · simp at h
  · split at h
    · simp at h
    · simp only [Prod.mk.injEq, Except.ok.injEq] at h
      obtain ⟨h1, h2⟩ := h
      subst h2
      rw [← h1]
      exact ⟨rfl, rfl, rfl⟩

/-- A successful `UpdateUser` carrying `some true` for the verified
flag returns a row whose verified flag is true. -/
theorem UpdateUser_ok_flag (sched : Sched) (username : String) (s s1 : QState)
    (u : User) (h : UpdateUser sched ⟨username, some true⟩ s = (s1, .ok u)) :
    u.IsEmailVerified = true := by
  simp only [UpdateUser, step] at h
  split at h
  · simp at h
  · split at h
    · simp at h
    · simp only [Prod.mk.injEq, Except.ok.injEq] at h
      rw [← h.2]
      rfl

/-- `AddAccountBalance` never changes the entries table. -/
theorem AddAccountBalance_entries (sched : Sched) (p : AddAccountBalanceParams)
    (s : QState) : ((AddAccountBalance sched p s).1).db.entries = s.db.entries := by
  simp only [AddAccountBalance, step]
  split
  · rfl
  · split <;> rfl

/-- `AddAccountBalance` never changes the transfers table. -/
theorem AddAccountBalance_transfers (sched : Sched) (p : AddAccountBalanceParams)
    (s : QState) : ((AddAccountBalance sched p s).1).db.transfers = s.db.transfers := by
  simp only [AddAccountBalance, step]
  split
  · rfl
  · split <;> rfl

/-- `AddAccountBalance` records exactly one attempt in the trace. -/
theorem AddAccountBalance_trace (sched : Sched) (p : AddAccountBalanceParams)
    (s : QState) :
    ((AddAccountBalance sched p s).1).trace = s.trace ++ [.addAccountBalance p] := by
  simp only [AddAccountBalance, step]
  split
  · rfl
  · split <;> rfl

/-- `addBalanceIDs` distributes over trace concatenation. -/
theorem addBalanceIDs_append (xs ys : List Op) :
    addBalanceIDs (xs ++ ys) = addBalanceIDs xs ++ addBalanceIDs ys := by
  simp [addBalanceIDs]

/-- `addMoney` never changes the entries table. -/
theorem addMoney_entries (sched : Sched) (s : QState) (id1 a1 id2 a2 : Int) :
    ((addMoney sched s id1 a1 id2 a2).1).db.entries = s.db.entries := by
  unfold addMoney
  split
  next s1 e heq =>
    have h := AddAccountBalance_entries sched ⟨id1, a1⟩ s
    rw [heq] at h
    exact h
  next s1 a heq =>
    have h1 := AddAccountBalance_entries sched ⟨id1, a1⟩ s
    rw [heq] at h1
    split
    next s2 e2 heq2 =>
      have h2 := AddAccountBalance_entries sched ⟨id2, a2⟩ s1
      rw [heq2] at h2
      exact h2.trans h1
    next s2 a2' heq2 =>
      have h2 := AddAccountBalance_entries sched ⟨id2, a2⟩ s1
      rw [heq2] at h2
      exact h2.trans h1

/-- `addMoney` never changes the transfers table. -/
theorem addMoney_transfers (sched : Sched) (s : QState) (id1 a1 id2 a2 : Int) :
    ((addMoney sched s id1 a1 id2 a2).1).db.transfers = s.db.transfers := by
  unfold addMoney
  split
  next s1 e heq =>
    have h := AddAccountBalance_transfers sched ⟨id1, a1⟩ s
    rw [heq] at h
    exact h
  next s1 a heq =>
    have h1 := AddAccountBalance_transfers sched ⟨id1, a1⟩ s
    rw [heq] at h1
    split
    next s2 e2 heq2 =>
      have h2 := AddAccountBalance_transfers sched ⟨id2, a2⟩ s1
      rw [heq2] at h2
      exact h2.trans h1
    next s2 a2' heq2 =>
      have h2 := AddAccountBalance_transfers sched ⟨id2, a2⟩ s1
      rw [heq2] at h2
      exact h2.trans h1

/-- The balance updates `addMoney` issues: always the first account,
then possibly the second - never any other order. -/
theorem addMoney_ids (sched : Sched) (s : QState) (id1 a1 id2 a2 : Int) :
    addBalanceIDs ((addMoney sched s id1 a1 id2 a2).1).trace =
        addBalanceIDs s.trace ++ [id1] ∨
    addBalanceIDs ((addMoney sched s id1 a1 id2 a2).1).trace =
        addBalanceIDs s.trace ++ [id1, id2] := by
  unfold addMoney
  split
  next s1 e heq =>
    left
    have h := AddAccountBalance_trace sched ⟨id1, a1⟩ s
    rw [heq] at h
    rw [h, addBalanceIDs_append]
    rfl
  next s1 a heq =>
    have h1 := AddAccountBalance_trace sched ⟨id1, a1⟩ s
    rw [heq] at h1
    split
    next s2 e2 heq2 =>
      right
      have h2 := AddAccountBalance_trace sched ⟨id2, a2⟩ s1
      rw [heq2] at h2
      rw [h2, h1, addBalanceIDs_append, addBalanceIDs_append, List.append_assoc]
      rfl
    next s2 a2' heq2 =>
      right
      have h2 := AddAccountBalance_trace sched ⟨id2, a2⟩ s1
      rw [heq2] at h2
      rw [h2, h1, addBalanceIDs_append, addBalanceIDs_append, List.append_assoc]
      rfl

/-- `CreateTransfer` records exactly one attempt in the trace. -/
theorem CreateTransfer_trace (sched : Sched) (p : CreateTransferParams) (s : QState) :
    ((CreateTransfer sched p s).1).trace = s.trace ++ [.createTransfer p] := by
  simp only [CreateTransfer, step]
  split <;> rfl

/-- `CreateEntry` records exactly one attempt in the trace. -/
theorem CreateEntry_trace (sched : Sched) (p : CreateEntryParams) (s : QState) :
    ((CreateEntry sched p s).1).trace = s.trace ++ [.createEntry p] := by
  simp only [CreateEntry, step]
  split <;> rfl

/-- The trace `execTx` reports is empty (transaction never opened) or
exactly the callback's trace. -/
theorem execTx_trace {ρ : Type} (zero : ρ) (ctl : TxCtl) (db : DB)
    (fn : QState → QState × ρ × Option Err) :
    (execTx zero ctl db fn).2.2.1 = [] ∨
    (execTx zero ctl db fn).2.2.1 = ((fn ⟨db, 0, []⟩).1).trace := by
  unfold execTx
  split
  · exact .inl rfl
  · split
    next s r e heq =>
      right
      rw [heq]
      split <;> rfl
    next s r heq =>
      right
      rw [heq]
      split <;> rfl

/-- The balance updates the transfer unit of work issues: none (an
early insert failed), or exactly the updates of its `addMoney` call, in
the order fixed by the account-id split. -/
theorem transferTxFn_ids (sched : Sched) (arg : TransferTxParams) (s : QState) :
    addBalanceIDs ((transferTxFn sched arg s).1).trace = addBalanceIDs s.trace ∨
    (arg.FromAccountID < arg.ToAccountID ∧
      (addBalanceIDs ((transferTxFn sched arg s).1).trace =
          addBalanceIDs s.trace ++ [arg.FromAccountID] ∨
       addBalanceIDs ((transferTxFn sched arg s).1).trace =
          addBalanceIDs s.trace ++ [arg.FromAccountID, arg.ToAccountID])) ∨
    (¬arg.FromAccountID < arg.ToAccountID ∧
      (addBalanceIDs ((transferTxFn sched arg s).1).trace =
          addBalanceIDs s.trace ++ [arg.ToAccountID] ∨
       addBalanceIDs ((transferTxFn sched arg s).1).trace =
          addBalanceIDs s.trace ++ [arg.ToAccountID, arg.FromAccountID])) := by
  unfold transferTxFn
  split
  next s1 e heq =>
    left
    have h1 := CreateTransfer_trace sched ⟨arg.FromAccountID, arg.ToAccountID, arg.Amount⟩ s
    rw [heq] at h1
    rw [h1, addBalanceIDs_append]
    simp [addBalanceIDs]
  next s1 tr heq =>
    have h1 := CreateTransfer_trace sched ⟨arg.FromAccountID, arg.ToAccountID, arg.Amount⟩ s
    rw [heq] at h1
    split
    next s2 e heq2 =>
      left
      have h2 := CreateEntry_trace sched ⟨arg.FromAccountID, -arg.Amount⟩ s1
      rw [heq2] at h2
      rw [h2, h1, addBalanceIDs_append, addBalanceIDs_append]
      simp [addBalanceIDs]
    next s2 fe heq2 =>
      have h2 := CreateEntry_trace sched ⟨arg.FromAccountID, -arg.Amount⟩ s1
      rw [heq2] at h2
      split
      next s3 e heq3 =>
        left
        have h3 := CreateEntry_trace sched ⟨arg.ToAccountID, arg.Amount⟩ s2
        rw [heq3] at h3
        rw [h3, h2, h1, addBalanceIDs_append, addBalanceIDs_append, addBalanceIDs_append]
        simp [addBalanceIDs]
      next s3 te heq3 =>
        have h3 := CreateEntry_trace sched ⟨arg.ToAccountID, arg.Amount⟩ s2
        rw [heq3] at h3
        have hs3 : addBalanceIDs s3.trace = addBalanceIDs s.trace := by
          rw [h3, h2, h1, addBalanceIDs_append, addBalanceIDs_append, addBalanceIDs_append]
          simp [addBalanceIDs]
        split
        next hlt =>
          refine .inr (.inl ⟨hlt, ?_⟩)
          split
          next s4 a1 a2 err4 heq4 =>
            have hids := addMoney_ids sched s3 arg.FromAccountID (-arg.Amount)
              arg.ToAccountID arg.Amount
            rw [heq4] at hids
            rcases hids with hid | hid
            · exact .inl (by rw [hid, hs3])
            · exact .inr (by rw [hid, hs3])
        next hnlt =>
          refine .inr (.inr ⟨hnlt, ?_⟩)
          split
          next s4 a1 a2 err4 heq4 =>
            have hids := addMoney_ids sched s3 arg.ToAccountID arg.Amount
              arg.FromAccountID (-arg.Amount)
            rw [heq4] at hids
            rcases hids with hid | hid
            · exact .inl (by rw [hid, hs3])
            · exact .inr (by rw [hid, hs3])

/-- When `execTx` reports no error, the transaction opened, the
callback succeeded, and the callback's final state was committed. -/
theorem execTx_none_inv {ρ : Type} (zero : ρ) (ctl : TxCtl) (db : DB)
    (fn : QState → QState × ρ × Option Err)
    (h : (execTx zero ctl db fn).2.2.2 = none) :
    ∃ s r, fn ⟨db, 0, []⟩ = (s, r, none) ∧
      execTx zero ctl db fn = (s.db, r, s.trace, none) := by
  cases hb : ctl.beginErr with
  | some e =>
    rw [show execTx zero ctl db fn = (db, zero, [], some e) from by
      simp only [execTx, hb]] at h
    simp at h
  | none =>
    rcases hfn : fn ⟨db, 0, []⟩ with ⟨s, r, ferr⟩
    cases ferr with
    | some e =>
      cases hrb : ctl.rollbackErr with
      | some rb =>
        rw [show execTx zero ctl db fn = (db, r, s.trace, some (.txRollback e rb)) from by
          simp only [execTx, hb, hfn, hrb]] at h
        simp at h
      | none =>
        rw [show execTx zero ctl db fn = (db, r, s.trace, some e) from by
          simp only [execTx, hb, hfn, hrb]] at h
        simp at h
    | none =>
      cases hce : ctl.commitErr with
      | some ce =>
        rw [show execTx zero ctl db fn = (db, r, s.trace, some ce) from by
          simp only [execTx, hb, hfn, hce]] at h
        simp at h
      | none =>
        exact ⟨s, r, rfl, by simp only [execTx, hb, hfn, hce]⟩

/-! ## Claim theorems -/

/-- Claim C1.  The claim states that whenever any step of the transfer
unit of work fails, `TransferTx` returns a non-nil error and commits
nothing.  The code violates this: its unit-of-work closure ends with
`return nil` instead of `return err`, so a failing `AddAccountBalance`
is swallowed.  At the concrete input below (accounts 1 and 2 holding
100 and 50, transfer of 10 from 1 to 2, a failure injected into the
first balance update - store call number 3), `TransferTx` reports
success and commits the Transfer row and both Entry rows while neither
balance changed. -/
theorem c1_failed_balance_update_commits :
    (TransferTx (failAt 3) noTxFail db0 ⟨1, 2, 10⟩).2.2.2 = none ∧
    (TransferTx (failAt 3) noTxFail db0 ⟨1, 2, 10⟩).1.transfers = [⟨1, 1, 2, 10⟩] ∧
    (TransferTx (failAt 3) noTxFail db0 ⟨1, 2, 10⟩).1.entries = [⟨1, 1, -10⟩, ⟨2, 2, 10⟩] ∧
    (TransferTx (failAt 3) noTxFail db0 ⟨1, 2, 10⟩).1.balance 1 = some 100 ∧
    (TransferTx (failAt 3) noTxFail db0 ⟨1, 2, 10⟩).1.balance 2 = some 50 :=
  ⟨rfl, rfl, rfl, rfl, rfl⟩

/-- Claim C5.  The claim states that every successful `TransferTx` with
amount `a` changes the from-balance by `-a` and the to-balance by `+a`,
conserving the sum.  The code violates this through the same
`return nil` slip: at the concrete input below (failure injected into
the second balance update - store call number 4), `TransferTx` reports
success, yet the from-account lost 10 while the to-account is
unchanged, and the returned `ToAccount` is the zero value. -/
theorem c5_success_reported_without_conservation :
    (TransferTx (failAt 4) noTxFail db0 ⟨1, 2, 10⟩).2.2.2 = none ∧
    (TransferTx (failAt 4) noTxFail db0 ⟨1, 2, 10⟩).1.balance 1 = some 90 ∧
    (TransferTx (failAt 4) noTxFail db0 ⟨1, 2, 10⟩).1.balance 2 = some 50 ∧
    (TransferTx (failAt 4) noTxFail db0 ⟨1, 2, 10⟩).2.1.ToAccount = Account.zero :=
  ⟨rfl, rfl, rfl, rfl⟩

/-- Claim C2: in every `TransferTx` call on two distinct accounts, the
`AddAccountBalance` updates issued (under any failure schedule and any
transaction-control outcome) form an initial segment of the two-update
sequence that touches the smaller account id first - so whenever both
updates are issued, the smaller id is locked first, regardless of the
transfer's direction. -/
theorem c2_lock_order (sched : Sched) (ctl : TxCtl) (db : DB) (arg : TransferTxParams)
    (hne : arg.FromAccountID ≠ arg.ToAccountID) :
    ∃ n, addBalanceIDs (TransferTx sched ctl db arg).2.2.1 =
      [min arg.FromAccountID arg.ToAccountID,
        max arg.FromAccountID arg.ToAccountID].take n := by
  unfold TransferTx
  rcases execTx_trace TransferTxResult.zero ctl db (transferTxFn sched arg) with h | h
  · exact ⟨0, by rw [h]; rfl⟩
  · rw [h]
    have hfn := transferTxFn_ids sched arg ⟨db, 0, []⟩
    have h0 : addBalanceIDs (⟨db, 0, []⟩ : QState).trace = [] := rfl
    rw [h0] at hfn
    simp only [List.nil_append] at hfn
    rcases hfn with h1 | ⟨hlt, h1 | h1⟩ | ⟨hnlt, h1 | h1⟩
    · exact ⟨0, by rw [h1]; rfl⟩
    · refine ⟨1, ?_⟩
      rw [h1, min_eq_left hlt.le]
      rfl
    · refine ⟨2, ?_⟩
      rw [h1, min_eq_left hlt.le, max_eq_right hlt.le]
      rfl
    · have hto : arg.ToAccountID < arg.FromAccountID :=
        lt_of_le_of_ne (not_lt.mp hnlt) (Ne.symm hne)
      refine ⟨1, ?_⟩
      rw [h1, min_eq_right hto.le]
      rfl
    · have hto : arg.ToAccountID < arg.FromAccountID :=
        lt_of_le_of_ne (not_lt.mp hnlt) (Ne.symm hne)
      refine ⟨2, ?_⟩
      rw [h1, min_eq_right hto.le, max_eq_left hto.le]
      rfl

/-- Witness for C2: a transfer from account 2 to account 1 still issues
its balance updates against account 1 first. -/
theorem c2_lock_order_witness :
    ∃ n, addBalanceIDs (TransferTx noFail noTxFail db0 ⟨2, 1, 10⟩).2.2.1 =
      [min (2 : Int) 1, max (2 : Int) 1].take n :=
  c2_lock_order noFail noTxFail db0 ⟨2, 1, 10⟩ (by decide)

/-- Claim C3: once the transaction opens, `execTx` commits and returns
the commit outcome when the callback succeeds; when the callback fails
and rollback succeeds it returns exactly the callback's error with the
store unchanged; when rollback also fails it returns the single
combined `tx err / rb err` error, still with the store unchanged. -/
theorem c3_execTx_contract {ρ : Type} (zero : ρ) (ctl : TxCtl) (db : DB)
    (fn : QState → QState × ρ × Option Err) (hb : ctl.beginErr = none) :
    (∀ s r, fn ⟨db, 0, []⟩ = (s, r, none) →
        execTx zero ctl db fn =
          match ctl.commitErr with
          | some ce => (db, r, s.trace, some ce)
          | none => (s.db, r, s.trace, none)) ∧
    (∀ s r e, fn ⟨db, 0, []⟩ = (s, r, some e) → ctl.rollbackErr = none →
        execTx zero ctl db fn = (db, r, s.trace, some e)) ∧
    (∀ s r e rbErr, fn ⟨db, 0, []⟩ = (s, r, some e) → ctl.rollbackErr = some rbErr →
        execTx zero ctl db fn = (db, r, s.trace, some (.txRollback e rbErr))) := by
  refine ⟨?_, ?_, ?_⟩
  · intro s r h
    simp only [execTx, hb, h]
  · intro s r e h hrb
    simp only [execTx, hb, h, hrb]
  · intro s r e rbErr h hrb
    simp only [execTx, hb, h, hrb]

/-- Witness for C3: a unit of work that succeeds without store calls
commits and returns no error. -/
theorem c3_execTx_contract_witness :
    execTx (0 : Nat) noTxFail db0 (fun s => (s, 7, none)) = (db0, 7, [], none) := by
  have h := (c3_execTx_contract (0 : Nat) noTxFail db0 (fun s => (s, 7, none)) rfl).1
    ⟨db0, 0, []⟩ 7 rfl
  simpa using h

/-- Claim C4: every `TransferTx` that reports success has appended
exactly two Entry rows for the transfer - the returned `FromEntry`
against the from-account with the negated amount and the returned
`ToEntry` against the to-account with the amount - so the two entry
amounts sum to zero and the entries' account ids equal the returned
Transfer row's endpoints.  Stated under the spec's input precondition
of a strictly positive amount (on which Go's int64 negation and
integer negation agree), and for every failure schedule and
transaction-control outcome. -/
theorem c4_entry_pairing (sched : Sched) (ctl : TxCtl) (db : DB) (arg : TransferTxParams)
    (_hpos : 0 < arg.Amount)
    (hok : (TransferTx sched ctl db arg).2.2.2 = none) :
    (TransferTx sched ctl db arg).1.entries =
      db.entries ++ [(TransferTx sched ctl db arg).2.1.FromEntry,
        (TransferTx sched ctl db arg).2.1.ToEntry] ∧
    (TransferTx sched ctl db arg).2.1.FromEntry.AccountID = arg.FromAccountID ∧
    (TransferTx sched ctl db arg).2.1.FromEntry.Amount = -arg.Amount ∧
    (TransferTx sched ctl db arg).2.1.ToEntry.AccountID = arg.ToAccountID ∧
    (TransferTx sched ctl db arg).2.1.ToEntry.Amount = arg.Amount ∧
    (TransferTx sched ctl db arg).2.1.FromEntry.Amount +
      (TransferTx sched ctl db arg).2.1.ToEntry.Amount = 0 ∧
    (TransferTx sched ctl db arg).2.1.Transfer.FromAccountID = arg.FromAccountID ∧
    (TransferTx sched ctl db arg).2.1.Transfer.ToAccountID = arg.ToAccountID := by
  obtain ⟨s1, r, hfn, hexec⟩ :=
    execTx_none_inv TransferTxResult.zero ctl db (transferTxFn sched arg) hok
  have hT : TransferTx sched ctl db arg = (s1.db, r, s1.trace, none) := hexec
  rw [hT]
  unfold transferTxFn at hfn
  split at hfn
  next sA e heqA => simp at hfn
  next sA tr heqA =>
    split at hfn
    next sB e heqB => simp at hfn
    next sB fe heqB =>
      split at hfn
      next sC e heqC => simp at hfn
      next sC te heqC =>
        obtain ⟨htr, -, hentA, -, -⟩ := CreateTransfer_ok sched _ ⟨db, 0, []⟩ sA tr heqA
        obtain ⟨hfe, hentB, -, -⟩ := CreateEntry_ok sched _ sA sB fe heqB
        obtain ⟨hte, hentC, -, -⟩ := CreateEntry_ok sched _ sB sC te heqC
        split at hfn
        next hlt =>
          split at hfn
          next s4 a1 a2 err4 heq4 =>
            simp only [Prod.mk.injEq, and_true] at hfn
            obtain ⟨h41, h42⟩ := hfn
            subst h41
            subst h42
            have hm : s4.db.entries = sC.db.entries := by
              have h := addMoney_entries sched sC arg.FromAccountID (-arg.Amount)
                arg.ToAccountID arg.Amount
              rw [heq4] at h
              exact h
            refine ⟨?_, ?_, ?_, ?_, ?_, ?_, ?_, ?_⟩
            · show s4.db.entries = db.entries ++ [fe, te]
              rw [hm, hentC, hentB, hentA, List.append_assoc]
              rfl
            · show fe.AccountID = arg.FromAccountID
              rw [hfe]
            · show fe.Amount = -arg.Amount
              rw [hfe]
            · show te.AccountID = arg.ToAccountID
              rw [hte]
            · show te.Amount = arg.Amount
              rw [hte]
            · show fe.Amount + te.Amount = 0
              rw [hfe, hte]
              simp
            · show tr.FromAccountID = arg.FromAccountID
              rw [htr]
            · show tr.ToAccountID = arg.ToAccountID
              rw [htr]
        next hnlt =>
          split at hfn
          next s4 a1 a2 err4 heq4 =>
            simp only [Prod.mk.injEq, and_true] at hfn
            obtain ⟨h41, h42⟩ := hfn
            subst h41
            subst h42
            have hm : s4.db.entries = sC.db.entries := by
              have h := addMoney_entries sched sC arg.ToAccountID arg.Amount
                arg.FromAccountID (-arg.Amount)
              rw [heq4] at h
              exact h
            refine ⟨?_, ?_, ?_, ?_, ?_, ?_, ?_, ?_⟩
            · show s4.db.entries = db.entries ++ [fe, te]
              rw [hm, hentC, hentB, hentA, List.append_assoc]
              rfl
            · show fe.AccountID = arg.FromAccountID
              rw [hfe]
            · show fe.Amount = -arg.Amount
              rw [hfe]
            · show te.AccountID = arg.ToAccountID
              rw [hte]
            · show te.Amount = arg.Amount
              rw [hte]
            · show fe.Amount + te.Amount = 0
              rw [hfe, hte]
              simp
            · show tr.FromAccountID = arg.FromAccountID
              rw [htr]
            · show tr.ToAccountID = arg.ToAccountID
              rw [htr]

/-- Witness for C4: the concrete successful transfer of 10 from
account 1 to account 2 appends exactly its two entries. -/
theorem c4_entry_pairing_witness :
    (0 : Int) < 10 ∧ (TransferTx noFail noTxFail db0 ⟨1, 2, 10⟩).2.2.2 = none ∧
    (TransferTx noFail noTxFail db0 ⟨1, 2, 10⟩).1.entries =
      db0.entries ++ [(TransferTx noFail noTxFail db0 ⟨1, 2, 10⟩).2.1.FromEntry,
        (TransferTx noFail noTxFail db0 ⟨1, 2, 10⟩).2.1.ToEntry] :=
  ⟨by decide, rfl, (c4_entry_pairing noFail noTxFail db0 ⟨1, 2, 10⟩ (by decide) rfl).1⟩

/-- Claim C10: when the first `AddAccountBalance` of `addMoney` fails,
`addMoney` returns at once with that error, the second update is never
attempted (exactly one balance-update call joins the trace and the
database image is unchanged), and the returned second account is the
zero value. -/
theorem c10_addMoney_first_failure (sched : Sched) (s s1 : QState)
    (accountID1 amount1 accountID2 amount2 : Int) (e : Err)
    (h : AddAccountBalance sched ⟨accountID1, amount1⟩ s = (s1, .error e)) :
    addMoney sched s accountID1 amount1 accountID2 amount2 =
      (s1, Account.zero, Account.zero, some e) ∧
    s1.db = s.db ∧
    s1.trace = s.trace ++ [.addAccountBalance ⟨accountID1, amount1⟩] := by
  have hs := AddAccountBalance_error sched ⟨accountID1, amount1⟩ s s1 e h
  refine ⟨?_, ?_, ?_⟩
  · simp only [addMoney, h]
  · rw [hs]
  · rw [hs]

/-- Witness for C10: a failure injected into the first balance update
of `addMoney` at a concrete state. -/
theorem c10_addMoney_first_failure_witness :
    addMoney (failAt 0) ⟨db0, 0, []⟩ 1 5 2 7 =
      (⟨db0, 1, [.addAccountBalance ⟨1, 5⟩]⟩, Account.zero, Account.zero,
        some (.injected 0)) :=
  (c10_addMoney_first_failure (failAt 0) ⟨db0, 0, []⟩
    ⟨db0, 1, [.addAccountBalance ⟨1, 5⟩]⟩ 1 5 2 7 (.injected 0) rfl).1

/-- Claim C8: a transfer request whose amount is not strictly positive
fails the request binding, is answered with status 400, and no store
operation at all is issued. -/
theorem c8_nonpositive_amount_rejected (currencyOK : String → Bool) (sched : Sched)
    (ctl : TxCtl) (authUsername : String) (db : DB) (req : api.transferRequest)
    (h : req.amount ≤ 0) :
    api.createTransfer currencyOK sched ctl authUsername db req = (400, [], db) := by
  have hc : decide (0 < req.amount) = false := decide_eq_false (not_lt.mpr h)
  have hb : api.bindTransferRequest currencyOK req = false := by
    unfold api.bindTransferRequest
    rw [hc]
    simp
  unfold api.createTransfer
  rw [hb]
  rfl

/-- Witness for C8: a concrete request for a transfer of -5 is answered
with 400 and an empty store trace. -/
theorem c8_nonpositive_amount_rejected_witness :
    api.createTransfer (fun c => c == "USD") noFail noTxFail "alice" db0
      ⟨1, 2, -5, "USD"⟩ = (400, [], db0) :=
  c8_nonpositive_amount_rejected _ _ _ _ _ _ (by decide)

/-- Claim C6: if the conditional update of the verification record
fails or matches no row, `VerifyEmailTx` aborts with an error and the
whole store - in particular the owning user's verified flag - is left
unchanged; otherwise (the update returned a genuine row and the user
update succeeds) the owning user's verified flag is set to true and the
updated User and VerifyEmail records are returned and committed. -/
theorem c6_verifyEmailTx_conditional_consume (sched : Sched) (ctl : TxCtl) (db : DB)
    (arg : VerifyEmailTxParams) (hb : ctl.beginErr = none) :
    (∀ s1 e,
        UpdateVerifyEmail sched ⟨arg.EmailId, arg.SecretCode⟩ ⟨db, 0, []⟩ = (s1, .error e) →
        (∃ e2, (VerifyEmailTx sched ctl db arg).2.2.2 = some e2) ∧
        (VerifyEmailTx sched ctl db arg).1 = db) ∧
    (∀ s1 ve s2 u,
        UpdateVerifyEmail sched ⟨arg.EmailId, arg.SecretCode⟩ ⟨db, 0, []⟩ = (s1, .ok ve) →
        (ve.ID == 0) = false →
        UpdateUser sched ⟨ve.Username, some true⟩ s1 = (s2, .ok u) →
        ctl.commitErr = none →
        VerifyEmailTx sched ctl db arg = (s2.db, ⟨u, ve⟩, s2.trace, none) ∧
        u.IsEmailVerified = true) := by
  constructor
  · intro s1 e h
    cases hrb : ctl.rollbackErr with
    | some rb =>
      have hx : VerifyEmailTx sched ctl db arg =
          (db, VerifyEmailTxResult.zero, s1.trace, some (.txRollback e rb)) := by
        simp only [VerifyEmailTx, execTx, verifyEmailTxFn, hb, h, hrb]
      rw [hx]
      exact ⟨⟨_, rfl⟩, rfl⟩
    | none =>
      have hx : VerifyEmailTx sched ctl db arg =
          (db, VerifyEmailTxResult.zero, s1.trace, some e) := by
        simp only [VerifyEmailTx, execTx, verifyEmailTxFn, hb, h, hrb]
      rw [hx]
      exact ⟨⟨_, rfl⟩, rfl⟩
  · intro s1 ve s2 u h1 hid h2 hce
    refine ⟨?_, UpdateUser_ok_flag sched ve.Username s1 s2 u h2⟩
    simp [VerifyEmailTx, execTx, verifyEmailTxFn, hb, h1, hid, h2, hce]

/-- Witness for C6: consuming the concrete record 7 with the right code
succeeds and sets carol's verified flag. -/
theorem c6_verifyEmailTx_conditional_consume_witness :
    VerifyEmailTx noFail noTxFail dbV ⟨7, "code"⟩ =
      (sV2.db, ⟨userCarolVerified, veCarolUsed⟩, sV2.trace, none) ∧
    userCarolVerified.IsEmailVerified = true :=
  (c6_verifyEmailTx_conditional_consume noFail noTxFail dbV ⟨7, "code"⟩ rfl).2
    sV1 veCarolUsed sV2 userCarolVerified rfl rfl rfl rfl

/-- Claim C9: `CreateUserTx` never invokes the `AfterCreate` callback
when the insert fails (and commits nothing); when the insert succeeds
the callback runs inside the same unit of work, after the insert and
before commit, and a callback error rolls the whole transaction back -
including the user insert - and is returned as `CreateUserTx`'s error;
when both succeed the new user row is committed and the trace shows the
insert followed by exactly one callback invocation. -/
theorem c9_createUserTx_callback (sched : Sched) (ctl : TxCtl) (db : DB)
    (p : CreateUserParams) (cb : User → Option Err) (hb : ctl.beginErr = none) :
    (∀ s1 e, CreateUser sched p ⟨db, 0, []⟩ = (s1, .error e) →
        (∃ e2, (CreateUserTx sched ctl db ⟨p, cb⟩).2.2.2 = some e2) ∧
        (CreateUserTx sched ctl db ⟨p, cb⟩).1 = db ∧
        countAfterCreate (CreateUserTx sched ctl db ⟨p, cb⟩).2.2.1 = 0) ∧
    (∀ s1 u e, CreateUser sched p ⟨db, 0, []⟩ = (s1, .ok u) → cb u = some e →
        ctl.rollbackErr = none →
        CreateUserTx sched ctl db ⟨p, cb⟩ =
          (db, ⟨u⟩, s1.trace ++ [.afterCreate u], some e)) ∧
    (∀ s1 u, CreateUser sched p ⟨db, 0, []⟩ = (s1, .ok u) → cb u = none →
        ctl.commitErr = none →
        CreateUserTx sched ctl db ⟨p, cb⟩ =
          (s1.db, ⟨u⟩, s1.trace ++ [.afterCreate u], none) ∧
        s1.db.users = db.users ++ [u] ∧
        s1.trace = [.createUser p]) := by
  refine ⟨?_, ?_, ?_⟩
  · intro s1 e h
    have hs1 := CreateUser_error sched p ⟨db, 0, []⟩ s1 e h
    cases hrb : ctl.rollbackErr with
    | some rb =>
      have hx : CreateUserTx sched ctl db ⟨p, cb⟩ =
          (db, CreateUserTxResult.zero, s1.trace, some (.txRollback e rb)) := by
        simp only [CreateUserTx, execTx, createUserTxFn, hb, h, hrb]
      rw [hx]
      refine ⟨⟨_, rfl⟩, rfl, ?_⟩
      rw [hs1]
      rfl
    | none =>
      have hx : CreateUserTx sched ctl db ⟨p, cb⟩ =
          (db, CreateUserTxResult.zero, s1.trace, some e) := by
        simp only [CreateUserTx, execTx, createUserTxFn, hb, h, hrb]
      rw [hx]
      refine ⟨⟨_, rfl⟩, rfl, ?_⟩
      rw [hs1]
      rfl
  · intro s1 u e h hcb hrb
    simp only [CreateUserTx, execTx, createUserTxFn, hb, h, hcb, hrb]
  · intro s1 u h hcb hce
    obtain ⟨-, husers, htrace⟩ := CreateUser_ok sched p ⟨db, 0, []⟩ s1 u h
    refine ⟨?_, husers, htrace⟩
    simp only [CreateUserTx, execTx, createUserTxFn, hb, h, hcb, hce]

/-- Witness for C9: creating alice with a succeeding callback commits
her row; the trace is the insert followed by the callback invocation. -/
theorem c9_createUserTx_callback_witness :
    CreateUserTx noFail noTxFail db0 ⟨pAlice, fun _ => none⟩ =
      (sU1.db, ⟨userAlice⟩, sU1.trace ++ [.afterCreate userAlice], none) ∧
    sU1.db.users = db0.users ++ [userAlice] ∧
    sU1.trace = [.createUser pAlice] :=
  (c9_createUserTx_callback noFail noTxFail db0 pAlice (fun _ => none) rfl).2.2
    sU1 userAlice rfl rfl rfl

/-- Claim C7 counterexample.  The claim states that a `GetUser` failure
in `ProcessTaskSendVerifyEmail` yields a non-retryable error.  The
code wraps the store's error with plain `%w` (no `asynq.SkipRetry`), so
the error is retryable: at the concrete input below (no user named
alice in the store), processing fails with an error whose unwrap chain
does not carry `SkipRetry`. -/
theorem c7_user_not_found_is_retried :
    (worker.ProcessTaskSendVerifyEmail noFail (.ok ⟨"alice"⟩) "s3cr3t" none db0).2.2 =
      some (.wrap "failed to get user" .noRows) ∧
    retryable (.wrap "failed to get user" .noRows) = true :=
  ⟨rfl, rfl⟩

/-- Claim C7 as amended: a payload unmarshal failure yields the
non-retryable `SkipRetry`-wrapping error; a `GetUser` failure yields a
retryable error (the task is re-enqueued, contrary to the original
claim) as long as the store's own error does not carry `SkipRetry`;
and a notifier failure yields a retryable error. -/
theorem c7_retry_classification (sched : Sched)
    (parse : Except Err worker.PayloadSendVerifyEmail) (secret : String) (db : DB) :
    (∀ e0 sendErr, parse = .error e0 →
        (worker.ProcessTaskSendVerifyEmail sched parse secret sendErr db).2.2 =
          some (.wrap "failed to unmarshal payload" .skipRetry) ∧
        retryable (.wrap "failed to unmarshal payload" .skipRetry) = false) ∧
    (∀ p s1 e sendErr, parse = .ok p →
        GetUser sched p.Username ⟨db, 0, []⟩ = (s1, .error e) →
        containsSkipRetry e = false →
        (worker.ProcessTaskSendVerifyEmail sched parse secret sendErr db).2.2 =
          some (.wrap "failed to get user" e) ∧
        retryable (.wrap "failed to get user" e) = true) ∧
    (∀ p s1 u s2 ve msg, parse = .ok p →
        GetUser sched p.Username ⟨db, 0, []⟩ = (s1, .ok u) →
        CreateVerifyEmail sched ⟨u.Username, u.Email, secret⟩ s1 = (s2, .ok ve) →
        (worker.ProcessTaskSendVerifyEmail sched parse secret (some msg) db).2.2 =
          some (.wrap "failed to send verify email" (.plain msg)) ∧
        retryable (.wrap "failed to send verify email" (.plain msg)) = true) := by
  refine ⟨?_, ?_, ?_⟩
  · intro e0 sendErr hp
    subst hp
    exact ⟨rfl, rfl⟩
  · intro p s1 e sendErr hp hg hskip
    subst hp
    constructor
    · simp only [worker.ProcessTaskSendVerifyEmail, hg]
    · simp only [retryable, containsSkipRetry, hskip]
      rfl
  · intro p s1 u s2 ve msg hp hg hc
    subst hp
    constructor
    · simp only [worker.ProcessTaskSendVerifyEmail, hg, hc]
    · rfl

/-- Witness for the amended C7: with user bob present and the notifier
failing, processing fails with a retryable error. -/
theorem c7_retry_classification_witness :
    (worker.ProcessTaskSendVerifyEmail noFail (.ok ⟨"bob"⟩) "sc" (some "smtp down")
        dbU).2.2 =
      some (.wrap "failed to send verify email" (.plain "smtp down")) ∧
    retryable (.wrap "failed to send verify email" (.plain "smtp down")) = true :=
  (c7_retry_classification noFail (.ok ⟨"bob"⟩) "sc" dbU).2.2
    ⟨"bob"⟩ sGet userBob sCreate veBob "smtp down" rfl rfl rfl

end Bank
